import Mathlib

/-!
Verification of the revolut-py authentication and token-renewal core.

The definitions below are a shallow embedding of the Python sources:
  - `src/revolut/__init__.py` (Session Transport: `Client._verif_resp_code`,
    `Client._token_expired`, `Client._make_call`, `Client._make_call_retried`,
    and the token check in `Revolut.__init__`),
  - `src/token_renewal/__init__.py` (Login Protocol Engine and Token Renewal
    Controller: `is_valid_2fa_code`, `token_encode`, `validate_token_response`,
    `extract_token`, `get_token_step2`, `signin_biometric`, `renew_token`,
    `_write_conf`).
HTTP is modelled by passing the would-be responses explicitly; a response body
that is not valid JSON is modelled as `none`.
-/

namespace RevolutPy

/-- Minimal JSON value model (Python `dict`/`list`/scalars as produced by
`response.json()`).  Numbers are integers, which covers every field the
authentication flow inspects (status payload error codes, epoch millis). -/
inductive Json where
  | null
  | bool (b : Bool)
  | num (n : Int)
  | str (s : String)
  | arr (elems : List Json)
  | obj (fields : List (String × Json))

/-- Python `j[k]` / `k in j` on a JSON object: first binding of key `k`. -/
def Json.getKey : Json → String → Option Json
  | .obj fields, k => (fields.find? (fun p => p.1 == k)).map (fun p => p.2)
  | _, _ => none

/-- An HTTP response as seen by the client: status code plus parsed JSON body.
`body = none` models a body on which `response.json()` raises (not valid JSON). -/
structure Response where
  status_code : Nat
  body : Option Json

/-- The `expected_status_code` argument of `Client._make_call`: a single int or
a list of ints. -/
inductive ExpectedStatus where
  | one (c : Nat)
  | many (cs : List Nat)
deriving DecidableEq

/-- `Client._verif_resp_code`: status equality for an int, membership for a list. -/
def _verif_resp_code (ret : Response) : ExpectedStatus → Bool
  | .one c => ret.status_code == c
  | .many cs => cs.contains ret.status_code

/-- `Client._token_expired`: `ret.json()` must succeed (otherwise `False` is
returned from the `except` branch), and then the check is bare `status == 401`. -/
def _token_expired (ret : Response) : Bool :=
  match ret.body with
  | none => false
  | some _ => ret.status_code == 401

/-- Outcome of one `Client._make_call` invocation. -/
inductive CallResult where
  | ok (r : Response)
  | tokenExpired
  | connectionError (status : Nat)

/-- `Client._make_call` on the already-received response: return it when the
status is expected, raise `TokenExpiredException` when in renew-token mode and
`_token_expired` holds, otherwise raise `ConnectionError` (unexpected status). -/
def _make_call (renew : Bool) (expected : ExpectedStatus) (ret : Response) : CallResult :=
  if _verif_resp_code ret expected then .ok ret
  else if renew && _token_expired ret then .tokenExpired
  else .connectionError ret.status_code

/-- Outcome of the retried call wrapper. -/
inductive RetriedOutcome where
  | ok (r : Response)
  | fatalTokenExpired
  | connErr (status : Nat)
  | noResponse

/-- Modelled from the spec: the retry combinator supplied by the external
`retry_decorator` dependency, as configured in `Client._make_call_retried`
(`tries=2`, renewal callback registered for `TokenExpiredException`).  Per the
spec (section 4.3) a token-expired signal triggers exactly one renewal and one
retry of the original call; a second token-expired signal on the retry is
fatal, and every other failure propagates without retry at this layer.  The
list holds the responses the network would return to successive attempts; the
result records the outcome, the number of attempts made, and the number of
renewals performed. -/
def _make_call_retried (renew : Bool) (expected : ExpectedStatus)
    (resps : List Response) : RetriedOutcome × Nat × Nat :=
  match resps with
  | [] => (.noResponse, 0, 0)
  | r1 :: rest =>
    match _make_call renew expected r1 with
    | .ok r => (.ok r, 1, 0)
    | .connectionError s => (.connErr s, 1, 0)
    | .tokenExpired =>
      match rest with
      | [] => (.noResponse, 1, 1)
      | r2 :: _ =>
        match _make_call renew expected r2 with
        | .ok r => (.ok r, 2, 1)
        | .connectionError s => (.connErr s, 2, 1)
        | .tokenExpired => (.fatalTokenExpired, 2, 1)

/-- The vendor pending-consent check in the APP branch of `get_token_step2`:
the Python loop continues only when `'code' in res and res['code'] == 9035`
(the negation of the abort condition `'code' not in res or res['code'] != 9035`). -/
def pending_code_ok (res : Json) : Bool :=
  match res.getKey "code" with
  | some (.num n) => n == 9035
  | _ => false

/-- Python exception classes used by the raise sites of the two poll loops. -/
inductive PyExc where
  | runtimeError
  | connectionError
deriving DecidableEq

/-- Outcome of the APP-channel step-2 polling loop in `get_token_step2`. -/
inductive AppPollResult where
  | success (res : Json)
  | timeout (count : Nat)
  | contractViolation
  | transportError (status : Nat)
  | jsonError
  | exhausted

/-- The APP branch of `get_token_step2`: poll the `/token` endpoint expecting
status 200 (done) or 422 (pending, vendor error code 9035), with the iteration
counter checked against the cap 50 before every call.  `resps` holds the
responses the simulated network returns to successive polls; the second
component of the result counts the poll calls actually made.  `exhausted`
marks a simulation that ran out of responses and corresponds to no Python
behaviour. -/
def app_poll : List Response → Nat → Nat → AppPollResult × Nat
  | [], count, calls =>
    if count > 50 then (.timeout count, calls) else (.exhausted, calls)
  | r :: rest, count, calls =>
    if count > 50 then (.timeout count, calls)
    else
      match _make_call false (.many [200, 422]) r with
      | .ok ret =>
        match ret.body with
        | none => (.jsonError, calls + 1)
        | some res =>
          if ret.status_code == 200 then (.success res, calls + 1)
          else if pending_code_ok res then app_poll rest (count + 1) (calls + 1)
          else (.contractViolation, calls + 1)
      | _ => (.transportError r.status_code, calls + 1)

/-- The Python exception class each failing outcome of the APP poll loop is
raised with: the iteration-cap timeout is a `RuntimeError`, the
unexpected-error-code abort and the transport's unexpected-status failure are
`ConnectionError`s. -/
def app_poll_exc : AppPollResult → Option PyExc
  | .timeout _ => some .runtimeError
  | .contractViolation => some .connectionError
  | .transportError _ => some .connectionError
  | _ => none

/-- Outcome of the biometric (3FA) confirmation polling loop in
`signin_biometric`. -/
inductive BioPollResult where
  | success (r : Response)
  | timeout (count : Nat)
  | transportError (status : Nat)
  | exhausted

/-- The step-3 confirmation loop of `signin_biometric`: poll the
per-biometric-id confirm endpoint expecting status 200 (done) or 204 (still
pending), with the iteration counter checked against the cap 50 before every
call. -/
def bio_poll : List Response → Nat → Nat → BioPollResult × Nat
  | [], count, calls =>
    if count > 50 then (.timeout count, calls) else (.exhausted, calls)
  | r :: rest, count, calls =>
    if count > 50 then (.timeout count, calls)
    else
      match _make_call false (.many [200, 204]) r with
      | .ok ret =>
        if ret.status_code == 200 then (.success ret, calls + 1)
        else bio_poll rest (count + 1) (calls + 1)
      | _ => (.transportError r.status_code, calls + 1)

/-- Python exception class of each failing outcome of the biometric poll loop:
the cap timeout is a `RuntimeError`, unexpected response content (a status
outside the expected set) is the transport's `ConnectionError`. -/
def bio_poll_exc : BioPollResult → Option PyExc
  | .timeout _ => some .runtimeError
  | .transportError _ => some .connectionError
  | _ => none

/-- A pending APP-channel poll response: status 422 with a JSON body whose
`code` field is the vendor pending-consent code 9035. -/
def AppPending (r : Response) : Prop :=
  r.status_code = 422 ∧ ∃ j, r.body = some j ∧ j.getKey "code" = some (.num 9035)

/-- A concrete pending APP-channel poll response (422, vendor code 9035). -/
def pendingResp : Response := ⟨422, some (.obj [("code", .num 9035)])⟩

/-- A concrete successful poll response. -/
def okResp : Response := ⟨200, some (.obj [])⟩

/-- Python truthiness of an optional string (`None` and the empty string are
falsy). -/
def str_truthy : Option String → Bool
  | some s => s != ""
  | none => false

/-- The token check at the end of `Revolut.__init__`: when a (truthy) `token`
argument is passed it is installed without renewal; otherwise renewal is
triggered exactly when the cached token is falsy or
`conf.get('expiry', 0) - time.time() <= 5`.  Time values are modelled as
rationals (Python floats of epoch seconds); a missing `expiry` entry defaults
to 0. -/
def revolut_init_should_renew (tokenArg : Option String) (confToken : Option String)
    (confExpiry : Option Rat) (now : Rat) : Bool :=
  if str_truthy tokenArg then false
  else if !(str_truthy confToken) then true
  else decide (confExpiry.getD 0 - now ≤ 5)

/-- `string.digits`: the ten ASCII digit characters. -/
def string_digits : List Char := ['0', '1', '2', '3', '4', '5', '6', '7', '8', '9']

/-- `is_valid_2fa_code` on a `str` argument: length exactly 6 and every
character contained in `string.digits`. -/
def is_valid_2fa_code_str (code : String) : Bool :=
  code.length == 6 && code.data.all (fun d => string_digits.contains d)

/-- `is_valid_2fa_code` on an `int` argument: `len(str(code)) == 6` (Python
`str` of a negative integer includes the minus sign). -/
def is_valid_2fa_code_int (code : Int) : Bool :=
  (Int.repr code).length == 6

/-- Number of digits in the decimal representation of an integer (the minus
sign is not a digit). -/
def decimal_digit_count (n : Int) : Nat := (Nat.repr n.natAbs).length

/-- `API_ROOT` from `revolut/__init__.py`. -/
def API_ROOT : String := "https://app.revolut.com"

/-- `API_BASE` from `revolut/__init__.py`. -/
def API_BASE : String := API_ROOT ++ "/api/retail"

/-- `_URL_GET_TOKEN_STEP2`, the signin-confirm endpoint. -/
def _URL_GET_TOKEN_STEP2 : String := API_BASE ++ "/signin/confirm"

/-- One POST request as issued by `Client._post`: url, JSON payload (an
ordered list of fields, mirroring the Python dict insertion order) and the
expected status codes. -/
structure PostCall where
  url : String
  payload : List (String × Json)
  expected : ExpectedStatus

/-- Failure of the EMAIL/SMS step-2 sequence. -/
inductive Step2Err where
  | transport (status : Nat)
  | jsonError

/-- The EMAIL/SMS branch of `get_token_step2` after code validation: three
sequential POSTs to the signin-confirm endpoint — `{phone, code}` expecting
204, the same dict with `password` added expecting 204, then with
`limitedAccess=False` added expecting the default 200, whose JSON body is the
step's result.  `r1 r2 r3` are the responses the network would return; the
first component of the result is the trace of requests actually issued. -/
def emailsms_step2 (phone pw code : String) (r1 r2 r3 : Response) :
    List PostCall × Except Step2Err Json :=
  let d1 := [("phone", Json.str phone), ("code", Json.str code)]
  let c1 : PostCall := ⟨_URL_GET_TOKEN_STEP2, d1, .one 204⟩
  match _make_call false (.one 204) r1 with
  | .ok _ =>
    let d2 := d1 ++ [("password", Json.str pw)]
    let c2 : PostCall := ⟨_URL_GET_TOKEN_STEP2, d2, .one 204⟩
    match _make_call false (.one 204) r2 with
    | .ok _ =>
      let d3 := d2 ++ [("limitedAccess", Json.bool false)]
      let c3 : PostCall := ⟨_URL_GET_TOKEN_STEP2, d3, .one 200⟩
      match _make_call false (.one 200) r3 with
      | .ok ret =>
        match ret.body with
        | some j => ([c1, c2, c3], .ok j)
        | none => ([c1, c2, c3], .error .jsonError)
      | _ => ([c1, c2, c3], .error (.transport r3.status_code))
    | _ => ([c1, c2], .error (.transport r2.status_code))
  | _ => ([c1], .error (.transport r1.status_code))

/-- The base64 alphabet (RFC 4648), as used by Python `base64.b64encode`. -/
def b64Table : List Char :=
  ['A', 'B', 'C', 'D', 'E', 'F', 'G', 'H', 'I', 'J', 'K', 'L', 'M',
   'N', 'O', 'P', 'Q', 'R', 'S', 'T', 'U', 'V', 'W', 'X', 'Y', 'Z',
   'a', 'b', 'c', 'd', 'e', 'f', 'g', 'h', 'i', 'j', 'k', 'l', 'm',
   'n', 'o', 'p', 'q', 'r', 's', 't', 'u', 'v', 'w', 'x', 'y', 'z',
   '0', '1', '2', '3', '4', '5', '6', '7', '8', '9', '+', '/']

/-- The base64 character for a 6-bit value. -/
def b64Char (n : Nat) : Char := b64Table.getD n '?'

/-- Position of a character in the base64 alphabet (none for '=' and any
other non-alphabet character). -/
def b64Index (c : Char) : Option Nat := b64Table.findIdx? (fun x => x == c)

/-- Standard base64 encoding of a byte sequence, in 3-byte groups with '='
padding, as performed by Python `base64.b64encode`. -/
def b64EncodeGroups : List Nat → List Char
  | [] => []
  | [a] => [b64Char (a / 4), b64Char (a % 4 * 16), '=', '=']
  | [a, b] => [b64Char (a / 4), b64Char (a % 4 * 16 + b / 16), b64Char (b % 16 * 4), '=']
  | a :: b :: c :: rest =>
    b64Char (a / 4) :: b64Char (a % 4 * 16 + b / 16) :: b64Char (b % 16 * 4 + c / 64)
      :: b64Char (c % 64) :: b64EncodeGroups rest

/-- Base64 decoding in 4-character groups, the inverse of `b64EncodeGroups`. -/
def b64DecodeGroups : List Char → Option (List Nat)
  | [] => some []
  | c1 :: c2 :: c3 :: c4 :: rest =>
    match b64Index c1, b64Index c2 with
    | some n1, some n2 =>
      if c3 = '=' then
        if c4 = '=' ∧ rest = [] ∧ n2 % 16 = 0 then some [n1 * 4 + n2 / 16] else none
      else
        match b64Index c3 with
        | some n3 =>
          if c4 = '=' then
            if rest = [] ∧ n3 % 4 = 0 then
              some [n1 * 4 + n2 / 16, n2 % 16 * 16 + n3 / 4]
            else none
          else
            match b64Index c4, b64DecodeGroups rest with
            | some n4, some tail =>
              some ((n1 * 4 + n2 / 16) :: (n2 % 16 * 16 + n3 / 4) :: (n3 % 4 * 64 + n4) :: tail)
            | _, _ => none
        | none => none
    | _, _ => none
  | _ => none

/-- Split a byte list at the first occurrence of `sep`. -/
def splitFirst (sep : Nat) : List Nat → Option (List Nat × List Nat)
  | [] => none
  | x :: xs =>
    if x = sep then some ([], xs)
    else
      match splitFirst sep xs with
      | some (f, s) => some (x :: f, s)
      | none => none

/-- Bytes back to a string (each byte one character). -/
def asciiDecode (bytes : List Nat) : String := String.mk (bytes.map Char.ofNat)

/-- Python `s.encode("ascii")`: the byte values of the characters, failing on
any non-ASCII character (`UnicodeEncodeError`). -/
def str_encode_ascii (s : String) : Option (List Nat) :=
  if s.data.all (fun c => decide (c.toNat < 128)) then some (s.data.map Char.toNat)
  else none

/-- `token_encode`: base64 of the ASCII encoding of `"{f}:{s}"`. -/
def token_encode (f s : String) : Option String :=
  (str_encode_ascii (f ++ ":" ++ s)).map (fun bs => String.mk (b64EncodeGroups bs))

/-- Modelled from the spec: the decode direction of the token round-trip
("base64-decode and split on the separator").  No decoder exists in the
sources; this follows the spec's words, splitting at the first ':' (byte 58)
of the decoded byte string. -/
def token_decode (token : String) : Option (String × String) :=
  match b64DecodeGroups token.data with
  | none => none
  | some bytes =>
    match splitFirst 58 bytes with
    | none => none
    | some (f, s) => some (asciiDecode f, asciiDecode s)

/-- `validate_token_response`: requires the keys `user`, `accessToken`,
`tokenExpiryDate` and `user.id`, in that checking order; returns the name of
the first missing key (the Python code raises a `RuntimeError` naming it), or
`none` when the payload is valid. -/
def validate_token_response (response : Json) : Option String :=
  if (response.getKey "user").isNone then some "user"
  else if (response.getKey "accessToken").isNone then some "accessToken"
  else if (response.getKey "tokenExpiryDate").isNone then some "tokenExpiryDate"
  else
    match response.getKey "user" with
    | some u => if (u.getKey "id").isNone then some "user.id" else none
    | none => some "user"

/-- `extract_token`: `token_encode(response['user']['id'], response['accessToken'])`. -/
def extract_token (json_response : Json) : Option String :=
  match json_response.getKey "user" with
  | some u =>
    match u.getKey "id", json_response.getKey "accessToken" with
    | some (.str user_id), some (.str access_token) => token_encode user_id access_token
    | _, _ => none
  | none => none

/-- The completion tail of `get_token`: validate the final payload, convert
the millisecond epoch `tokenExpiryDate` to seconds
(`int(response['tokenExpiryDate']) / 1000`), and derive the opaque token via
`extract_token`.  An error carries the offending key. -/
def get_token_finalize (response : Json) : Except String (String × Rat) :=
  match validate_token_response response with
  | some k => .error k
  | none =>
    match response.getKey "tokenExpiryDate" with
    | some (.num ms) =>
      match extract_token response with
      | some token => .ok (token, (ms : Rat) / 1000)
      | none => .error "token-encode"
    | _ => .error "tokenExpiryDate"

/-- Values held in the mutable `conf` dictionary. -/
inductive ConfVal where
  | str (s : String)
  | num (q : Rat)
  | boolean (b : Bool)
  | strList (l : List String)
  | nil

/-- The `conf` dictionary: ordered key/value pairs, first binding wins. -/
abbrev Dict := List (String × ConfVal)

/-- Python truthiness of a conf value. -/
def confVal_truthy : ConfVal → Bool
  | .str s => s != ""
  | .num q => q != 0
  | .boolean b => b
  | .strList l => !l.isEmpty
  | .nil => false

/-- `conf.get(k)`: first binding of `k`. -/
def dictGet (d : Dict) (k : String) : Option ConfVal :=
  match d with
  | [] => none
  | (k0, v0) :: rest => if k0 = k then some v0 else dictGet rest k

/-- `conf[k] = v`: replace the first binding of `k` in place, or append. -/
def dictSet (d : Dict) (k : String) (v : ConfVal) : Dict :=
  match d with
  | [] => [(k, v)]
  | (k0, v0) :: rest => if k0 = k then (k0, v) :: rest else (k0, v0) :: dictSet rest k v

/-- `renew_token` after a successful `get_token` returning token `t` and
expiry `e`: `conf['token'] = t; conf['expiry'] = e` (persistence is then
`_write_conf conf`). -/
def renew_token (conf : Dict) (t : String) (e : Rat) : Dict :=
  dictSet (dictSet conf "token" (.str t)) "expiry" (.num e)

/-- One iteration of the `_write_conf` collection loop:
`if i in conf: data[i] = conf.get(i)`. -/
def persist_step (conf : Dict) (data : Dict) (i : String) : Dict :=
  match dictGet conf i with
  | some v => dictSet data i v
  | none => data

/-- The `data` dict `_write_conf` builds from `conf.get('persistedKeys')`. -/
def persisted_data (conf : Dict) (ks : List String) : Dict :=
  ks.foldl (persist_step conf) []

/-- `_write_conf`: no write when `conf` is falsy, `accConf` is falsy, or the
collected data is empty; otherwise the per-account file receives exactly the
collected data.  (A missing or ill-typed `persistedKeys` entry aborts the
write; Python would raise there.) -/
def _write_conf (conf : Dict) : Option Dict :=
  if conf.isEmpty then none
  else if !(dictGet conf "accConf").any confVal_truthy then none
  else
    match dictGet conf "persistedKeys" with
    | some (.strList ks) =>
      if (persisted_data conf ks).isEmpty then none else some (persisted_data conf ks)
    | _ => none

/-- A concrete credentials dictionary with the default persisted keys. -/
def C9conf : Dict :=
  [("phone", .str "+33612345678"), ("pass", .str "1234"), ("token", .str "old"),
   ("expiry", .num 0), ("device", .str "dev-uuid"),
   ("persistedKeys", .strList ["token", "expiry", "device"]),
   ("accConf", .str "acc.config")]

theorem pending_code_ok_eq_true {j : Json} (h : j.getKey "code" = some (.num 9035)) :
    pending_code_ok j = true := by
  unfold pending_code_ok
  rw [h]
  rfl

theorem pending_code_ok_eq_false {j : Json} (h : j.getKey "code" ≠ some (.num 9035)) :
    pending_code_ok j = false := by
  unfold pending_code_ok
  split
  next n heq =>
    have hn : n ≠ 9035 := by
      intro hh
      exact h (by rw [heq, hh])
    exact beq_eq_false_iff_ne.mpr hn
  next => rfl

theorem app_poll_pending_cons (r : Response) (rest : List Response) (count calls : Nat)
    (hcount : count ≤ 50) (hp : AppPending r) :
    app_poll (r :: rest) count calls = app_poll rest (count + 1) (calls + 1) := by
  obtain ⟨hs, j, hb, hc⟩ := hp
  have hmc : _make_call false (.many [200, 422]) r = .ok r := by
    simp [_make_call, _verif_resp_code, hs]
  simp only [app_poll]
  rw [if_neg (by omega : ¬ count > 50), hmc]
  simp [hb, hs, pending_code_ok_eq_true hc]

theorem app_poll_pending_skip (pendings : List Response) :
    ∀ (suffix : List Response) (count calls : Nat),
      count + pendings.length ≤ 51 →
      (∀ r ∈ pendings, AppPending r) →
      app_poll (pendings ++ suffix) count calls
        = app_poll suffix (count + pendings.length) (calls + pendings.length) := by
  induction pendings with
  | nil => intro suffix count calls _ _; simp
  | cons r rest ih =>
    intro suffix count calls hle hp
    have hr : AppPending r := hp r (by simp)
    have h1 : count ≤ 50 := by
      simp only [List.length_cons] at hle; omega
    rw [List.cons_append, app_poll_pending_cons r (rest ++ suffix) count calls h1 hr,
      ih suffix (count + 1) (calls + 1)
        (by simp only [List.length_cons] at hle; omega)
        (fun x hx => hp x (by simp [hx]))]
    simp only [List.length_cons]
    have e1 : count + 1 + rest.length = count + (rest.length + 1) := by omega
    have e2 : calls + 1 + rest.length = calls + (rest.length + 1) := by omega
    rw [e1, e2]

theorem app_poll_all_pending (resps : List Response) (h51 : 51 ≤ resps.length)
    (hp : ∀ r ∈ resps, AppPending r) :
    app_poll resps 0 0 = (.timeout 51, 51) := by
  have hsplit : resps = resps.take 51 ++ resps.drop 51 := (List.take_append_drop 51 resps).symm
  have hlen : (resps.take 51).length = 51 := by
    rw [List.length_take]; omega
  rw [hsplit, app_poll_pending_skip (resps.take 51) (resps.drop 51) 0 0
    (by omega) (fun r hr => hp r (hsplit ▸ List.mem_append_left _ hr))]
  rw [hlen]
  cases resps.drop 51 <;> simp [app_poll]

theorem bio_poll_pending_cons (r : Response) (rest : List Response) (count calls : Nat)
    (hcount : count ≤ 50) (hs : r.status_code = 204) :
    bio_poll (r :: rest) count calls = bio_poll rest (count + 1) (calls + 1) := by
  have hmc : _make_call false (.many [200, 204]) r = .ok r := by
    simp [_make_call, _verif_resp_code, hs]
  simp only [bio_poll]
  rw [if_neg (by omega : ¬ count > 50), hmc]
  simp [hs]

theorem bio_poll_pending_skip (pendings : List Response) :
    ∀ (suffix : List Response) (count calls : Nat),
      count + pendings.length ≤ 51 →
      (∀ r ∈ pendings, r.status_code = 204) →
      bio_poll (pendings ++ suffix) count calls
        = bio_poll suffix (count + pendings.length) (calls + pendings.length) := by
  induction pendings with
  | nil => intro suffix count calls _ _; simp
  | cons r rest ih =>
    intro suffix count calls hle hp
    have h1 : count ≤ 50 := by
      simp only [List.length_cons] at hle; omega
    rw [List.cons_append, bio_poll_pending_cons r (rest ++ suffix) count calls h1 (hp r (by simp)),
      ih suffix (count + 1) (calls + 1)
        (by simp only [List.length_cons] at hle; omega)
        (fun x hx => hp x (by simp [hx]))]
    simp only [List.length_cons]
    have e1 : count + 1 + rest.length = count + (rest.length + 1) := by omega
    have e2 : calls + 1 + rest.length = calls + (rest.length + 1) := by omega
    rw [e1, e2]

theorem bio_poll_all_pending (resps : List Response) (h51 : 51 ≤ resps.length)
    (hp : ∀ r ∈ resps, r.status_code = 204) :
    bio_poll resps 0 0 = (.timeout 51, 51) := by
  have hsplit : resps = resps.take 51 ++ resps.drop 51 := (List.take_append_drop 51 resps).symm
  have hlen : (resps.take 51).length = 51 := by
    rw [List.length_take]; omega
  rw [hsplit, bio_poll_pending_skip (resps.take 51) (resps.drop 51) 0 0
    (by omega) (fun r hr => hp r (hsplit ▸ List.mem_append_left _ hr))]
  rw [hlen]
  cases resps.drop 51 <;> simp [bio_poll]

/-- C2 (counterexample): the claim as stated quantifies over every N, but for
N = 51 pending responses followed by one 200 the loop times out after 51 poll
calls (the counter exceeds the cap before the 52nd call), so the engine does
not complete after N + 1 = 52 calls. -/
theorem C2_counterexample :
    (app_poll (List.replicate 51 pendingResp ++ [okResp]) 0 0).2 ≠ 51 + 1
    ∧ app_poll (List.replicate 51 pendingResp ++ [okResp]) 0 0 = (.timeout 51, 51) :=
  ⟨by decide, by rfl⟩

/-- C2 (amended): for every N ≤ 50, given N pending responses (status 422 with
vendor code 9035) followed by one response with status 200 and a JSON body,
the APP-channel step-2 loop completes successfully after exactly N + 1 poll
calls; and if instead the (N+1)-st response is a 422 whose JSON object body
lacks a `code` field or carries a code other than 9035, the loop aborts
immediately — after exactly N + 1 calls — with the protocol-violation error. -/
theorem C2_app_polling (pendings : List Response) (hn : pendings.length ≤ 50)
    (hp : ∀ r ∈ pendings, AppPending r) :
    (∀ final j, final.status_code = 200 → final.body = some j →
      app_poll (pendings ++ [final]) 0 0 = (.success j, pendings.length + 1))
    ∧ (∀ bad fbad, bad.status_code = 422 → bad.body = some (.obj fbad) →
        (Json.obj fbad).getKey "code" ≠ some (.num 9035) →
        app_poll (pendings ++ [bad]) 0 0 = (.contractViolation, pendings.length + 1)) := by
  constructor
  · intro final j hs hb
    rw [app_poll_pending_skip pendings [final] 0 0 (by omega) hp]
    have hmc : _make_call false (.many [200, 422]) final = .ok final := by
      simp [_make_call, _verif_resp_code, hs]
    simp only [app_poll, Nat.zero_add]
    rw [if_neg (by omega : ¬ pendings.length > 50), hmc]
    simp [hb, hs]
  · intro bad fbad hs hb hcode
    rw [app_poll_pending_skip pendings [bad] 0 0 (by omega) hp]
    have hmc : _make_call false (.many [200, 422]) bad = .ok bad := by
      simp [_make_call, _verif_resp_code, hs]
    simp only [app_poll, Nat.zero_add]
    rw [if_neg (by omega : ¬ pendings.length > 50), hmc]
    simp [hb, hs, pending_code_ok_eq_false hcode]

/-- C2 (witness): two pending polls then a 200 complete after 3 calls; two
pending polls then a 422 with an unexpected code abort after 3 calls. -/
theorem C2_app_polling_witness :
    app_poll (List.replicate 2 pendingResp ++ [okResp]) 0 0
      = (.success (.obj []), 2 + 1)
    ∧ app_poll (List.replicate 2 pendingResp ++ [⟨422, some (.obj [("code", .num 9001)])⟩]) 0 0
      = (.contractViolation, 2 + 1) := by
  have base := C2_app_polling (List.replicate 2 pendingResp) (by decide)
    (fun r hr => by
      rw [List.eq_of_mem_replicate hr]
      exact ⟨rfl, .obj [("code", .num 9035)], rfl, rfl⟩)
  constructor
  · have := base.1 okResp (.obj []) rfl rfl
    simpa using this
  · have := base.2 ⟨422, some (.obj [("code", .num 9001)])⟩ [("code", .num 9001)] rfl rfl
      (by intro h; simp [Json.getKey] at h)
    simpa using this

/-- C3 (counterexample): the claim as stated bounds both loops at "at most 50
poll calls", but with every response pending the APP-channel loop makes 51
poll calls before raising the timeout (the counter, checked before each call,
only exceeds the cap 50 at value 51). -/
theorem C3_counterexample :
    (app_poll (List.replicate 51 pendingResp) 0 0).2 = 51
    ∧ ¬ (app_poll (List.replicate 51 pendingResp) 0 0).2 ≤ 50 :=
  ⟨by rfl, by decide⟩

/-- C3 (amended): both polling loops are bounded by the iteration cap 50,
checked before every call: when every response remains pending (422 with
vendor code 9035 for the APP loop, 204 for the biometric loop) each loop
terminates after exactly 51 poll calls with the timeout failure, raised as a
`RuntimeError` — distinct from the `ConnectionError` used for the
protocol-violation and unexpected-status failures. -/
theorem C3_poll_bounded (resps bresps : List Response)
    (h51 : 51 ≤ resps.length) (hp : ∀ r ∈ resps, AppPending r)
    (hb51 : 51 ≤ bresps.length) (hbp : ∀ r ∈ bresps, r.status_code = 204) :
    app_poll resps 0 0 = (.timeout 51, 51)
    ∧ bio_poll bresps 0 0 = (.timeout 51, 51)
    ∧ app_poll_exc (.timeout 51) = some .runtimeError
    ∧ app_poll_exc .contractViolation = some .connectionError
    ∧ bio_poll_exc (.timeout 51) = some .runtimeError
    ∧ bio_poll_exc (.transportError 500) = some .connectionError
    ∧ PyExc.runtimeError ≠ PyExc.connectionError :=
  ⟨app_poll_all_pending resps h51 hp, bio_poll_all_pending bresps hb51 hbp,
    rfl, rfl, rfl, rfl, by decide⟩

/-- C3 (witness): 52 pending responses for each loop; both time out at 51
calls. -/
theorem C3_poll_bounded_witness :
    app_poll (List.replicate 52 pendingResp) 0 0 = (.timeout 51, 51)
    ∧ bio_poll (List.replicate 52 (⟨204, none⟩ : Response)) 0 0 = (.timeout 51, 51) := by
  have h := C3_poll_bounded (List.replicate 52 pendingResp)
    (List.replicate 52 (⟨204, none⟩ : Response))
    (by decide)
    (fun r hr => by
      rw [List.eq_of_mem_replicate hr]
      exact ⟨rfl, .obj [("code", .num 9035)], rfl, rfl⟩)
    (by decide)
    (fun r hr => by rw [List.eq_of_mem_replicate hr])
  exact ⟨h.1, h.2.1⟩

theorem make_call_expired_of_json_401 (exp : ExpectedStatus) (r : Response) (j : Json)
    (hbody : r.body = some j) (hstatus : r.status_code = 401)
    (hexp : _verif_resp_code r exp = false) :
    _make_call true exp r = .tokenExpired := by
  simp [_make_call, hexp, _token_expired, hbody, hstatus]

/-- C1 (counterexample): the claim as stated is false — a 401 response whose
body is not valid JSON does not raise the token-expired signal even in
renew-token mode (with 200 expected); `Client._token_expired` returns `False`
from its `except` branch, so the call takes the `ConnectionError` path. -/
theorem C1_counterexample :
    _make_call true (.one 200) ⟨401, none⟩ ≠ CallResult.tokenExpired := by
  intro h
  simp [_make_call, _verif_resp_code, _token_expired] at h

/-- C1 (amended): in renew-token mode, a response with status 401, a
JSON-parseable body, and a status not among the expected codes raises the
token-expired signal; the controller then performs exactly one renewal and
retries the original call exactly once — if the retry's status is expected the
call succeeds after 2 attempts and 1 renewal, and if the retry again signals
token-expired the failure is fatal after exactly 2 attempts and 1 renewal,
with no third attempt regardless of how many further responses are
available. -/
theorem C1_one_renewal_one_retry (exp : ExpectedStatus) (r1 : Response) (j1 : Json)
    (rest : List Response)
    (hbody : r1.body = some j1) (hstatus : r1.status_code = 401)
    (hexp : _verif_resp_code r1 exp = false) :
    _make_call true exp r1 = .tokenExpired
    ∧ (∀ r2 more, rest = r2 :: more → _verif_resp_code r2 exp = true →
        _make_call_retried true exp (r1 :: rest) = (.ok r2, 2, 1))
    ∧ (∀ r2 more j2, rest = r2 :: more → r2.body = some j2 → r2.status_code = 401 →
        _verif_resp_code r2 exp = false →
        _make_call_retried true exp (r1 :: rest) = (.fatalTokenExpired, 2, 1)) := by
  have h1 := make_call_expired_of_json_401 exp r1 j1 hbody hstatus hexp
  refine ⟨h1, ?_, ?_⟩
  · rintro r2 more rfl h2
    simp only [_make_call_retried, h1]
    simp [_make_call, h2]
  · rintro r2 more j2 rfl hb2 hs2 he2
    have h2 := make_call_expired_of_json_401 exp r2 j2 hb2 hs2 he2
    simp only [_make_call_retried, h1, h2]

/-- C1 (witness): concrete runs — 401-with-JSON then 200 succeeds after
exactly 2 attempts and 1 renewal; 401-with-JSON twice is fatal after exactly
2 attempts and 1 renewal even though a third response was available. -/
theorem C1_one_renewal_one_retry_witness :
    _make_call_retried true (.one 200)
        [⟨401, some (.obj [])⟩, ⟨200, some (.obj [])⟩]
      = (.ok ⟨200, some (.obj [])⟩, 2, 1)
    ∧ _make_call_retried true (.one 200)
        [⟨401, some (.obj [])⟩, ⟨401, some (.obj [])⟩, ⟨200, some (.obj [])⟩]
      = (.fatalTokenExpired, 2, 1) := by
  constructor
  · exact (C1_one_renewal_one_retry (.one 200) ⟨401, some (.obj [])⟩ (.obj [])
      [⟨200, some (.obj [])⟩] rfl rfl rfl).2.1 ⟨200, some (.obj [])⟩ [] rfl rfl
  · exact (C1_one_renewal_one_retry (.one 200) ⟨401, some (.obj [])⟩ (.obj [])
      [⟨401, some (.obj [])⟩, ⟨200, some (.obj [])⟩] rfl rfl rfl).2.2
      ⟨401, some (.obj [])⟩ [⟨200, some (.obj [])⟩] (.obj []) rfl rfl rfl rfl

/-- C4: at client construction (with no explicit token argument), renewal is
triggered exactly when no token is cached (absent or empty) or the cached
expiry minus the current time is at most the 5-second safety margin; in
particular a cached token expiring 3 seconds in the future triggers renewal,
and a cached token expiring beyond the margin does not (so no login call is
made). -/
theorem C4_init_renewal (confToken : Option String) (confExpiry : Option Rat) (now : Rat) :
    (revolut_init_should_renew none confToken confExpiry now = true ↔
      (str_truthy confToken = false ∨ confExpiry.getD 0 - now ≤ 5))
    ∧ revolut_init_should_renew none confToken (some (now + 3)) now = true
    ∧ (str_truthy confToken = true → 5 < confExpiry.getD 0 - now →
        revolut_init_should_renew none confToken confExpiry now = false) := by
  have h0 : str_truthy none = false := rfl
  refine ⟨?_, ?_, ?_⟩
  · cases h : str_truthy confToken with
    | false => simp [revolut_init_should_renew, h0, h]
    | true => simp [revolut_init_should_renew, h0, h]
  · cases h : str_truthy confToken with
    | false => simp [revolut_init_should_renew, h0, h]
    | true =>
      simp [revolut_init_should_renew, h0, h]
      norm_num
  · intro h hgt
    simp only [revolut_init_should_renew, h0, h, Bool.false_eq_true, if_false,
      Bool.not_true, decide_eq_false_iff_not]
    linarith

/-- C4 (witness): a cached token with expiry 3 seconds ahead of now = 100
triggers renewal; one with expiry 100 seconds ahead does not. -/
theorem C4_init_renewal_witness :
    revolut_init_should_renew none (some "tok") (some (100 + 3)) 100 = true
    ∧ revolut_init_should_renew none (some "tok") (some 200) 100 = false :=
  ⟨(C4_init_renewal (some "tok") (some 200) 100).2.1,
    (C4_init_renewal (some "tok") (some 200) 100).2.2 (by decide) (by norm_num)⟩

/-- C5 (counterexample): the claim's integer clause is false for negative
inputs — `is_valid_2fa_code(-12345)` is true (`str(-12345)` has length 6,
minus sign included) although the decimal representation of -12345 has only 5
digits. -/
theorem C5_counterexample :
    is_valid_2fa_code_int (-12345) = true ∧ decimal_digit_count (-12345) ≠ 6 :=
  ⟨by decide, by decide⟩

/-- C5 (amended): the validator returns true on a string exactly when it has
length 6 and every character is an ASCII digit; on an integer it returns true
exactly when the integer is nonnegative with exactly 6 decimal digits, or
negative with exactly 5 decimal digits (the minus sign occupying the sixth
position of `str(code)`). -/
theorem C5_is_valid_2fa_code :
    (∀ code : String, is_valid_2fa_code_str code = true ↔
      (code.length = 6 ∧ ∀ c ∈ code.data, c ∈ string_digits))
    ∧ (∀ n : Int, is_valid_2fa_code_int n = true ↔
      ((0 ≤ n ∧ decimal_digit_count n = 6) ∨ (n < 0 ∧ decimal_digit_count n = 5))) := by
  constructor
  · intro code
    simp [is_valid_2fa_code_str, List.all_eq_true, List.contains, List.elem_iff]
  · intro n
    cases n with
    | ofNat m =>
      simp only [is_valid_2fa_code_int, Int.repr, decimal_digit_count, Int.natAbs_ofNat,
        beq_iff_eq]
      constructor
      · intro h
        exact Or.inl ⟨Int.natCast_nonneg m, h⟩
      · rintro (⟨_, h⟩ | ⟨h, _⟩)
        · exact h
        · exact absurd h (not_lt.mpr (Int.natCast_nonneg m))
    | negSucc m =>
      simp only [is_valid_2fa_code_int, Int.repr, decimal_digit_count, Int.natAbs_negSucc,
        beq_iff_eq, String.length_append]
      have hms : ("-" : String).length = 1 := rfl
      rw [hms]
      constructor
      · intro h
        exact Or.inr ⟨Int.negSucc_lt_zero m, by omega⟩
      · rintro (⟨h, _⟩ | ⟨_, h⟩)
        · exact absurd h (not_le.mpr (Int.negSucc_lt_zero m))
        · omega

/-- C5 (witness): the validator accepts the 6-digit string "123456" and the
5-digit negative integer -12345; it rejects "12345" and 1234567. -/
theorem C5_is_valid_2fa_code_witness :
    is_valid_2fa_code_str "123456" = true
    ∧ is_valid_2fa_code_str "12345" = false
    ∧ is_valid_2fa_code_int (-12345) = true
    ∧ is_valid_2fa_code_int 1234567 = false := by
  refine ⟨(C5_is_valid_2fa_code.1 "123456").mpr (by decide), ?_, ?_, ?_⟩
  · by_contra h
    simp only [Bool.not_eq_false] at h
    exact absurd ((C5_is_valid_2fa_code.1 "12345").mp h).1 (by decide)
  · exact (C5_is_valid_2fa_code.2 (-12345)).mpr (Or.inr (by decide))
  · by_contra h
    simp only [Bool.not_eq_false] at h
    rcases (C5_is_valid_2fa_code.2 1234567).mp h with ⟨_, hd⟩ | ⟨hneg, _⟩
    · exact absurd hd (by decide)
    · exact absurd hneg (by decide)

/-- C10: a 401 response whose body is not valid JSON is never classified as
token-expired, even in renew-token mode: `_token_expired` is false, the call
takes the fatal unexpected-status (`ConnectionError`) path, and the wrapped
call performs no renewal and no retry (1 attempt, 0 renewals). -/
theorem C10_expiry_needs_json (exp : ExpectedStatus) (r : Response) (rest : List Response)
    (hbody : r.body = none) (hexp : _verif_resp_code r exp = false) :
    _token_expired r = false
    ∧ _make_call true exp r = .connectionError r.status_code
    ∧ _make_call_retried true exp (r :: rest) = (.connErr r.status_code, 1, 0) := by
  refine ⟨?_, ?_, ?_⟩ <;>
    simp [_token_expired, hbody, _make_call, hexp, _make_call_retried]

/-- C10 (witness): concrete non-JSON 401 response with 200 expected. -/
theorem C10_expiry_needs_json_witness :
    _token_expired ⟨401, none⟩ = false
    ∧ _make_call true (.one 200) ⟨401, none⟩ = .connectionError 401
    ∧ _make_call_retried true (.one 200) [⟨401, none⟩, ⟨200, some (.obj [])⟩]
        = (.connErr 401, 1, 0) :=
  C10_expiry_needs_json (.one 200) ⟨401, none⟩ [⟨200, some (.obj [])⟩] rfl rfl

/-- C6: for the EMAIL/SMS channel, step 2 issues exactly three POST calls to
the signin-confirm endpoint in this fixed order: first `{phone, code}`
expecting status 204, then the same payload with the password added expecting
204, then the same payload with `limitedAccess=false` added expecting 200,
whose JSON body is the step's result. -/
theorem C6_emailsms_three_calls (phone pw code : String) (r1 r2 r3 : Response) (j : Json)
    (h1 : r1.status_code = 204) (h2 : r2.status_code = 204)
    (h3 : r3.status_code = 200) (hb : r3.body = some j) :
    emailsms_step2 phone pw code r1 r2 r3 =
      ([⟨_URL_GET_TOKEN_STEP2, [("phone", .str phone), ("code", .str code)], .one 204⟩,
        ⟨_URL_GET_TOKEN_STEP2,
          [("phone", .str phone), ("code", .str code), ("password", .str pw)], .one 204⟩,
        ⟨_URL_GET_TOKEN_STEP2,
          [("phone", .str phone), ("code", .str code), ("password", .str pw),
            ("limitedAccess", .bool false)], .one 200⟩],
       .ok j) := by
  have m1 : _make_call false (.one 204) r1 = .ok r1 := by
    simp [_make_call, _verif_resp_code, h1]
  have m2 : _make_call false (.one 204) r2 = .ok r2 := by
    simp [_make_call, _verif_resp_code, h2]
  have m3 : _make_call false (.one 200) r3 = .ok r3 := by
    simp [_make_call, _verif_resp_code, h3]
  simp [emailsms_step2, m1, m2, m3, hb]

/-- C6 (witness): a concrete 204/204/200 exchange. -/
theorem C6_emailsms_three_calls_witness :
    emailsms_step2 "+33612345678" "1234" "654321"
        ⟨204, none⟩ ⟨204, none⟩ ⟨200, some (.obj [("accessToken", .str "tok")])⟩ =
      ([⟨_URL_GET_TOKEN_STEP2,
          [("phone", .str "+33612345678"), ("code", .str "654321")], .one 204⟩,
        ⟨_URL_GET_TOKEN_STEP2,
          [("phone", .str "+33612345678"), ("code", .str "654321"),
            ("password", .str "1234")], .one 204⟩,
        ⟨_URL_GET_TOKEN_STEP2,
          [("phone", .str "+33612345678"), ("code", .str "654321"),
            ("password", .str "1234"), ("limitedAccess", .bool false)], .one 200⟩],
       .ok (.obj [("accessToken", .str "tok")])) :=
  C6_emailsms_three_calls "+33612345678" "1234" "654321" _ _ _
    (.obj [("accessToken", .str "tok")]) rfl rfl rfl rfl

/-- C7: if any of the required fields user.id, accessToken or tokenExpiryDate
is absent from the final login payload, completion fails with the
contract-violation error and no token is produced; when all are present the
result token is the reversible encode of (user.id, accessToken) and the
expiry is the millisecond epoch value divided by 1000. -/
theorem C7_token_completion (response : Json) :
    ((response.getKey "accessToken" = none ∨ response.getKey "tokenExpiryDate" = none ∨
        (∀ u, response.getKey "user" = some u → u.getKey "id" = none)) →
      ∃ k, get_token_finalize response = .error k)
    ∧ (∀ u uid acc ms tok, response.getKey "user" = some u →
        u.getKey "id" = some (.str uid) →
        response.getKey "accessToken" = some (.str acc) →
        response.getKey "tokenExpiryDate" = some (.num ms) →
        token_encode uid acc = some tok →
        get_token_finalize response = .ok (tok, (ms : Rat) / 1000)) := by
  constructor
  · intro hmiss
    cases hu : response.getKey "user" with
    | none =>
      have hv : validate_token_response response = some "user" := by
        simp [validate_token_response, hu]
      exact ⟨"user", by simp [get_token_finalize, hv]⟩
    | some u =>
      cases hat : response.getKey "accessToken" with
      | none =>
        have hv : validate_token_response response = some "accessToken" := by
          simp [validate_token_response, hu, hat]
        exact ⟨"accessToken", by simp [get_token_finalize, hv]⟩
      | some a =>
        cases hte : response.getKey "tokenExpiryDate" with
        | none =>
          have hv : validate_token_response response = some "tokenExpiryDate" := by
            simp [validate_token_response, hu, hat, hte]
          exact ⟨"tokenExpiryDate", by simp [get_token_finalize, hv]⟩
        | some t =>
          rcases hmiss with h | h | h
          · rw [hat] at h; cases h
          · rw [hte] at h; cases h
          · have hid : u.getKey "id" = none := h u hu
            have hv : validate_token_response response = some "user.id" := by
              simp [validate_token_response, hu, hat, hte, hid]
            exact ⟨"user.id", by simp [get_token_finalize, hv]⟩
  · intro u uid acc ms tok hu hid hat hte henc
    have hv : validate_token_response response = none := by
      simp [validate_token_response, hu, hat, hte, hid]
    have hex : extract_token response = some tok := by
      simp [extract_token, hu, hid, hat, henc]
    simp [get_token_finalize, hv, hte, hex]

/-- C7 (witness): a complete payload yields the encoded token and the
second-valued expiry; a payload missing `accessToken` yields an error and no
token. -/
theorem C7_token_completion_witness :
    get_token_finalize (.obj [("user", .obj [("id", .str "u1")]),
        ("accessToken", .str "abc"), ("tokenExpiryDate", .num 1623064046252)])
      = .ok ("dTE6YWJj", (1623064046252 : Rat) / 1000)
    ∧ ∃ k, get_token_finalize (.obj [("user", .obj [("id", .str "u1")]),
        ("tokenExpiryDate", .num 1623064046252)]) = .error k := by
  constructor
  · exact (C7_token_completion _).2 (.obj [("id", .str "u1")]) "u1" "abc"
      1623064046252 "dTE6YWJj" rfl rfl rfl rfl (by rfl)
  · exact (C7_token_completion _).1 (Or.inl rfl)

theorem b64Index_b64Char : ∀ n, n < 64 → b64Index (b64Char n) = some n := by decide

theorem b64Char_ne_pad : ∀ n, n < 64 → b64Char n ≠ '=' := by decide

theorem b64_roundtrip : ∀ bs : List Nat, (∀ x ∈ bs, x < 256) →
    b64DecodeGroups (b64EncodeGroups bs) = some bs
  | [], _ => rfl
  | [a], h => by
    have ha : a < 256 := h a (by simp)
    have i1 := b64Index_b64Char (a / 4) (by omega)
    have i2 := b64Index_b64Char (a % 4 * 16) (by omega)
    have h3 : a % 4 * 16 % 16 = 0 := by omega
    simp only [b64EncodeGroups, b64DecodeGroups, i1, i2]
    simp [h3]
    omega
  | [a, b], h => by
    have ha : a < 256 := h a (by simp)
    have hb : b < 256 := h b (by simp)
    have i1 := b64Index_b64Char (a / 4) (by omega)
    have i2 := b64Index_b64Char (a % 4 * 16 + b / 16) (by omega)
    have i3 := b64Index_b64Char (b % 16 * 4) (by omega)
    have hne : b64Char (b % 16 * 4) ≠ '=' := b64Char_ne_pad _ (by omega)
    have h4 : b % 16 * 4 % 4 = 0 := by omega
    simp only [b64EncodeGroups, b64DecodeGroups, i1, i2, i3]
    simp [hne, h4]
    constructor <;> omega
  | a :: b :: c :: rest, h => by
    have ha : a < 256 := h a (by simp)
    have hb : b < 256 := h b (by simp)
    have hc : c < 256 := h c (by simp)
    have ih := b64_roundtrip rest (fun x hx => h x (by simp [hx]))
    have i1 := b64Index_b64Char (a / 4) (by omega)
    have i2 := b64Index_b64Char (a % 4 * 16 + b / 16) (by omega)
    have i3 := b64Index_b64Char (b % 16 * 4 + c / 64) (by omega)
    have i4 := b64Index_b64Char (c % 64) (by omega)
    have n3 : b64Char (b % 16 * 4 + c / 64) ≠ '=' := b64Char_ne_pad _ (by omega)
    have n4 : b64Char (c % 64) ≠ '=' := b64Char_ne_pad _ (by omega)
    simp only [b64EncodeGroups, b64DecodeGroups, i1, i2, i3, i4, ih]
    simp [n3, n4]
    refine ⟨by omega, by omega, by omega⟩

theorem splitFirst_append (sep : Nat) (f s : List Nat) (hf : sep ∉ f) :
    splitFirst sep (f ++ sep :: s) = some (f, s) := by
  induction f with
  | nil => simp [splitFirst]
  | cons x xs ih =>
    have hx : ¬ x = sep := fun h => hf (by simp [h])
    have hxs : sep ∉ xs := fun h => hf (by simp [h])
    simp [splitFirst, hx, ih hxs]

theorem asciiDecode_map_toNat (l : List Char) :
    asciiDecode (l.map Char.toNat) = String.mk l := by
  simp [asciiDecode, List.map_map, Function.comp_def, Char.ofNat_toNat]

theorem eq_colon_of_toNat (c : Char) (h : c.toNat = 58) : c = ':' := by
  have h2 := congrArg Char.ofNat h
  rw [Char.ofNat_toNat] at h2
  rw [h2]

/-- C8 (counterexample): the separator is not escaped, so a userId containing
':' does not round-trip — encoding ("a:b", "c") and decoding (split at the
first ':') yields ("a", "b:c"). -/
theorem C8_counterexample :
    (token_encode "a:b" "c").bind token_decode = some ("a", "b:c")
    ∧ (some (("a" : String), ("b:c" : String))
        ≠ some (("a:b" : String), ("c" : String))) :=
  ⟨by decide, by decide⟩

/-- C8 (amended): token encoding round-trips for every userId that does not
contain the separator ':' — for every ASCII userId without ':' and every
ASCII accessToken, base64-encoding "userId:accessToken" and then decoding
(base64-decode and split at the first separator) reproduces both values
exactly. -/
theorem C8_token_roundtrip (uid acc : String)
    (hu : ∀ c ∈ uid.data, c.toNat < 128) (ha : ∀ c ∈ acc.data, c.toNat < 128)
    (hcolon : ':' ∉ uid.data) :
    (token_encode uid acc).bind token_decode = some (uid, acc) := by
  have hdata : (uid ++ ":" ++ acc).data = uid.data ++ ':' :: acc.data := by
    simp [String.data_append]
  have hall : ((uid ++ ":" ++ acc).data.all fun c => decide (c.toNat < 128)) = true := by
    rw [hdata, List.all_eq_true]
    intro c hcmem
    rcases List.mem_append.mp hcmem with hm | hm
    · simpa using hu c hm
    · rcases List.mem_cons.mp hm with rfl | hm
      · decide
      · simpa using ha c hm
  have henc : str_encode_ascii (uid ++ ":" ++ acc)
      = some (uid.data.map Char.toNat ++ 58 :: acc.data.map Char.toNat) := by
    rw [str_encode_ascii, if_pos hall, hdata]
    simp
  have hbytes : ∀ x ∈ uid.data.map Char.toNat ++ 58 :: acc.data.map Char.toNat, x < 256 := by
    intro x hx
    rcases List.mem_append.mp hx with hm | hm
    · obtain ⟨c, hcm, rfl⟩ := List.mem_map.mp hm
      have := hu c hcm; omega
    · rcases List.mem_cons.mp hm with rfl | hm
      · omega
      · obtain ⟨c, hcm, rfl⟩ := List.mem_map.mp hm
        have := ha c hcm; omega
  have hnosep : (58 : Nat) ∉ uid.data.map Char.toNat := by
    intro hmem
    obtain ⟨c, hcm, hc58⟩ := List.mem_map.mp hmem
    exact hcolon (eq_colon_of_toNat c hc58 ▸ hcm)
  rw [token_encode, henc]
  show token_decode (String.mk (b64EncodeGroups
      (uid.data.map Char.toNat ++ 58 :: acc.data.map Char.toNat))) = some (uid, acc)
  have hmkdata : (String.mk (b64EncodeGroups
      (uid.data.map Char.toNat ++ 58 :: acc.data.map Char.toNat))).data
      = b64EncodeGroups (uid.data.map Char.toNat ++ 58 :: acc.data.map Char.toNat) := rfl
  simp only [token_decode, hmkdata, b64_roundtrip _ hbytes,
    splitFirst_append _ _ _ hnosep, asciiDecode_map_toNat]

/-- C8 (witness): a colon-free userId round-trips. -/
theorem C8_token_roundtrip_witness :
    (token_encode "user123" "secrettok").bind token_decode
      = some ("user123", "secrettok") :=
  C8_token_roundtrip "user123" "secrettok" (by decide) (by decide) (by decide)

theorem dictGet_dictSet_same (d : Dict) (k : String) (v : ConfVal) :
    dictGet (dictSet d k v) k = some v := by
  induction d with
  | nil => simp [dictSet, dictGet]
  | cons p rest ih =>
    obtain ⟨k0, v0⟩ := p
    by_cases h : k0 = k
    · simp [dictSet, dictGet, h]
    · simp [dictSet, dictGet, h, ih]

theorem dictGet_dictSet_other (d : Dict) (k k2 : String) (v : ConfVal) (hne : k2 ≠ k) :
    dictGet (dictSet d k v) k2 = dictGet d k2 := by
  induction d with
  | nil =>
    have : ¬ k = k2 := fun h => hne h.symm
    simp [dictSet, dictGet, this]
  | cons p rest ih =>
    obtain ⟨k0, v0⟩ := p
    by_cases h : k0 = k
    · subst h
      have h2 : ¬ k0 = k2 := fun hh => hne hh.symm
      simp [dictSet, dictGet, h2]
    · by_cases h2 : k0 = k2
      · subst h2
        simp [dictSet, dictGet, h]
      · simp [dictSet, dictGet, h, h2, ih]

theorem dictGet_foldl_persist (conf : Dict) (ks : List String) :
    ∀ (init : Dict) (k : String),
      dictGet (ks.foldl (persist_step conf) init) k
        = if k ∈ ks ∧ (dictGet conf k).isSome then dictGet conf k else dictGet init k := by
  induction ks with
  | nil => intro init k; simp
  | cons i rest ih =>
    intro init k
    rw [List.foldl_cons, ih]
    by_cases hmem : k ∈ rest ∧ (dictGet conf k).isSome
    · rw [if_pos hmem, if_pos ⟨List.mem_cons_of_mem i hmem.1, hmem.2⟩]
    · rw [if_neg hmem]
      by_cases hki : k = i
      · subst hki
        cases hc : dictGet conf k with
        | some v =>
          simp only [persist_step, hc, dictGet_dictSet_same]
          rw [if_pos ⟨List.mem_cons_self _ _, by simp [hc]⟩]
        | none =>
          simp only [persist_step, hc]
          rw [if_neg (fun hcon => by simp [hc] at hcon)]
      · have hstep : dictGet (persist_step conf init i) k = dictGet init k := by
          cases hc : dictGet conf i with
          | some v =>
            simp only [persist_step, hc]
            exact dictGet_dictSet_other init i k v hki
          | none => simp only [persist_step, hc]
        rw [hstep,
          if_neg (fun hcon => hmem ⟨(List.mem_cons.mp hcon.1).resolve_left hki, hcon.2⟩)]

theorem dictGet_persisted_data (conf : Dict) (ks : List String) (k : String) :
    dictGet (persisted_data conf ks) k
      = if k ∈ ks ∧ (dictGet conf k).isSome then dictGet conf k else none := by
  rw [persisted_data, dictGet_foldl_persist]
  rfl

theorem write_conf_some (conf : Dict) (pk : List String) (data : Dict)
    (hpk : dictGet conf "persistedKeys" = some (.strList pk))
    (hw : _write_conf conf = some data) :
    data = persisted_data conf pk := by
  unfold _write_conf at hw
  by_cases h1 : conf.isEmpty = true
  · rw [if_pos h1] at hw; cases hw
  · rw [if_neg h1] at hw
    by_cases h2 : (!(dictGet conf "accConf").any confVal_truthy) = true
    · rw [if_pos h2] at hw; cases hw
    · rw [if_neg h2] at hw
      rw [hpk] at hw
      have hw2 : (if (persisted_data conf pk).isEmpty = true then none
          else some (persisted_data conf pk)) = some data := hw
      by_cases h3 : (persisted_data conf pk).isEmpty = true
      · rw [if_pos h3] at hw2; cases hw2
      · rw [if_neg h3] at hw2
        exact (Option.some.inj hw2).symm

/-- C9: a successful renewal mutates exactly the `token` and `expiry` entries
of the credentials dictionary (every other key is unchanged), and the
per-account persistence writes exactly the keys listed in `persistedKeys`
that are present in the conf — with the default persisted keys (token,
expiry, device), the password is never written. -/
theorem C9_renewal_frame_and_persistence (conf : Dict) (t : String) (e : Rat) :
    dictGet (renew_token conf t e) "token" = some (.str t)
    ∧ dictGet (renew_token conf t e) "expiry" = some (.num e)
    ∧ (∀ k, k ≠ "token" → k ≠ "expiry" →
        dictGet (renew_token conf t e) k = dictGet conf k)
    ∧ (∀ c2 pk data, dictGet c2 "persistedKeys" = some (.strList pk) →
        _write_conf c2 = some data →
        ∀ k, dictGet data k
          = if k ∈ pk ∧ (dictGet c2 k).isSome then dictGet c2 k else none)
    ∧ (∀ c2 data,
        dictGet c2 "persistedKeys" = some (.strList ["token", "expiry", "device"]) →
        _write_conf c2 = some data → dictGet data "pass" = none) := by
  have hframe : ∀ k, k ≠ "token" → k ≠ "expiry" →
      dictGet (renew_token conf t e) k = dictGet conf k := by
    intro k h1 h2
    rw [renew_token, dictGet_dictSet_other _ _ _ _ h2, dictGet_dictSet_other _ _ _ _ h1]
  have hwrite : ∀ c2 pk data, dictGet c2 "persistedKeys" = some (.strList pk) →
      _write_conf c2 = some data →
      ∀ k, dictGet data k
        = if k ∈ pk ∧ (dictGet c2 k).isSome then dictGet c2 k else none := by
    intro c2 pk data hpk hw k
    rw [write_conf_some c2 pk data hpk hw, dictGet_persisted_data]
  refine ⟨?_, ?_, hframe, hwrite, ?_⟩
  · rw [renew_token, dictGet_dictSet_other _ _ _ _ (by decide), dictGet_dictSet_same]
  · rw [renew_token, dictGet_dictSet_same]
  · intro c2 data hpk hw
    rw [hwrite c2 _ data hpk hw "pass", if_neg]
    rintro ⟨hmem, _⟩
    simp at hmem

/-- C9 (witness): on a concrete credentials dictionary, renewal leaves the
password entry unchanged and the persisted file contents contain no `pass`
key while reproducing the persisted `token` entry. -/
theorem C9_renewal_frame_and_persistence_witness :
    dictGet (renew_token C9conf "newtok" 42) "pass" = dictGet C9conf "pass"
    ∧ dictGet (persisted_data C9conf ["token", "expiry", "device"]) "pass" = none := by
  constructor
  · exact (C9_renewal_frame_and_persistence C9conf "newtok" 42).2.2.1 "pass"
      (by decide) (by decide)
  · exact (C9_renewal_frame_and_persistence C9conf "newtok" 42).2.2.2.2 C9conf
      (persisted_data C9conf ["token", "expiry", "device"]) rfl rfl

end RevolutPy
